import Mathlib

/-!
Shallow embedding of the vispy shader-component modules
`vispy/visuals/components/color.py` and `vispy/visuals/components/material.py`.

Each component class becomes a Lean structure; its `SHADERS` dict of GLSL
template strings becomes a map from hook names to structured `ShaderTemplate`
values (a literal translation of the GLSL text); its `activate` method becomes
a function returning the placeholder bindings it declares, threading explicit
state where the Python code mutates (`self._vbo`, gloo buffer allocation).
Scalar values are modelled as rationals.
-/

/-- A GLSL expression occurring inside a component's shader template.
Placeholders (`$name` in the template text) are kept symbolic. -/
inductive GLExpr where
  /-- a placeholder reference `$name` -/
  | ph (name : String)
  /-- a placeholder called as a function, `$name()` -/
  | phCall (name : String)
  /-- a plain variable reference -/
  | varE (name : String)
  /-- a builtin or free function call `f(args...)` -/
  | callE (f : String) (args : List GLExpr)
  /-- member / swizzle access `e.f` -/
  | member (e : GLExpr) (f : String)
  /-- numeric literal -/
  | num (n : ℚ)
  /-- binary operator `a op b` -/
  | bin (op : String) (a b : GLExpr)
  /-- ternary conditional `c ? t : e` -/
  | cond (c t e : GLExpr)

/-- A GLSL statement occurring inside a component's shader template. -/
inductive GLStmt where
  /-- `return e;` -/
  | ret (e : GLExpr)
  /-- assignment to a placeholder, `$lhs = rhs;` -/
  | assignPh (lhs : String) (rhs : GLExpr)
  /-- declaration with initializer, `ty n = rhs;` -/
  | declAssign (ty n : String) (rhs : GLExpr)
  /-- assignment to an arbitrary lvalue, `lhs = rhs;` -/
  | assign (lhs rhs : GLExpr)
  /-- `if (c) { t } else { e }` -/
  | iteS (c : GLExpr) (t e : List GLStmt)
  /-- `if (c) { t }` -/
  | ifS (c : GLExpr) (t : List GLStmt)

/-- One GLSL function template from a component's `SHADERS` dict: return type,
the `$`-placeholder that names the function itself, the parameter list
(type, name) and the body. -/
structure ShaderTemplate where
  retType : String
  name_ph : String
  params : List (String × String)
  body : List GLStmt

/-- An uploaded vertex buffer: an opaque handle identity (allocation id)
together with the array data it was built from. -/
structure Buffer where
  id : Nat
  data : List (List ℚ)
deriving DecidableEq, Repr

/-- A Python-level value bound to a placeholder: a tuple, a numpy array,
a scalar, or a gloo buffer handle. -/
inductive PyVal where
  | tuple (xs : List ℚ)
  | array (xs : List ℚ)
  | scalar (x : ℚ)
  | buffer (b : Buffer)
deriving DecidableEq, Repr

/-- `np.array` applied to a flat sequence of scalars. -/
def np.array (xs : List ℚ) : PyVal := PyVal.array xs

/-- A Symbol declared for a placeholder during `activate`: either a storage
declaration `(storage-class, GLSL type, optional value-or-buffer)` — the
2- or 3-tuples assigned into `self._funcs[hook][placeholder]` — or a chained
reference to another component's shader function. -/
inductive ShaderSym where
  | decl (storage ty : String) (value : Option PyVal)
  | chained (fnName : String)
deriving DecidableEq, Repr

/-- Python exceptions raised by the embedded code. -/
inductive PyError where
  | indexError
  | attributeError
deriving DecidableEq, Repr

/-- State of the gloo buffer allocator: the next fresh handle id.
Modelled from the spec: `Buffer(array) -> bufferHandle` returns an opaque
handle owned by the graphics-API layer; handle identity is modelled by a
monotonically increasing allocation counter. -/
structure GlooState where
  nextId : Nat
deriving DecidableEq, Repr

/-- `gloo.VertexBuffer(data)`: allocate a fresh buffer handle holding `data`.
Modelled from the spec: the buffer upload primitive of the graphics-API
collaborator (`Buffer(array) -> bufferHandle`), which is outside this excerpt. -/
def gloo.VertexBuffer (data : List (List ℚ)) (s : GlooState) : Buffer × GlooState :=
  (⟨s.nextId, data⟩, ⟨s.nextId + 1⟩)

/-- `UniformColorComponent`: generates a uniform color for all vertexes. -/
structure UniformColorComponent where
  _color : List ℚ
deriving DecidableEq, Repr

/-- The `SHADERS` dict of `UniformColorComponent`:
`frag_color = "vec4 $colorInput() { return $rgba; }"`. -/
def UniformColorComponent.SHADERS : List (String × ShaderTemplate) :=
  [("frag_color",
    { retType := "vec4"
      name_ph := "colorInput"
      params := []
      body := [.ret (.ph "rgba")] })]

/-- `__init__(self, color=(1,1,1,1))`. -/
def UniformColorComponent.init (color : List ℚ := [1, 1, 1, 1]) : UniformColorComponent :=
  ⟨color⟩

/-- the `color` property getter -/
def UniformColorComponent.color (c : UniformColorComponent) : List ℚ := c._color

/-- the `color` property setter -/
def UniformColorComponent.setColor (c : UniformColorComponent) (v : List ℚ) :
    UniformColorComponent :=
  { c with _color := v }

/-- `activate(self, program, mode)` (both arguments unused in the source):
`self._funcs['frag_color']['rgba'] = ('uniform', 'vec4', np.array(self._color))`.
Returns the bindings declared into the `frag_color` function. -/
def UniformColorComponent.activate (c : UniformColorComponent) : List (String × ShaderSym) :=
  [("rgba", ShaderSym.decl "uniform" "vec4" (some (np.array c._color)))]

/-- C1: for a `UniformColorComponent` with color `c`, the `frag_color` template
declares a function with no parameters returning `vec4`, and `activate` binds
exactly one Symbol, placeholder `rgba`, a uniform of type `vec4` whose value is
the `np.array` form of `c`. -/
theorem uniformColor_frag_color_contract (col : List ℚ) :
    (∃ t : ShaderTemplate,
      UniformColorComponent.SHADERS = [("frag_color", t)] ∧
      t.params = [] ∧ t.retType = "vec4" ∧ t.body = [.ret (.ph "rgba")]) ∧
    (UniformColorComponent.init col).activate =
      [("rgba", ShaderSym.decl "uniform" "vec4" (some (np.array col)))] := by
  exact ⟨⟨_, rfl, rfl, rfl, rfl⟩, rfl⟩

/-- `VertexColorComponent`: reads color in from an (N,4) array or vertex
buffer. `_vbo` caches the uploaded buffer handle (`None` until first use). -/
structure VertexColorComponent where
  _color : List (List ℚ)
  _vbo : Option Buffer
deriving DecidableEq, Repr

/-- The `SHADERS` dict of `VertexColorComponent`:
`frag_color = "vec4 $colorInput() { return $rgba; }"` and
`vert_post_hook = "void $colorInputSupport() { $output_color = $input_color; }"`. -/
def VertexColorComponent.SHADERS : List (String × ShaderTemplate) :=
  [("frag_color",
    { retType := "vec4"
      name_ph := "colorInput"
      params := []
      body := [.ret (.ph "rgba")] }),
   ("vert_post_hook",
    { retType := "void"
      name_ph := "colorInputSupport"
      params := []
      body := [.assignPh "output_color" (.ph "input_color")] })]

/-- `__init__(self, color=None)`: stores the color array, `_vbo = None`. -/
def VertexColorComponent.init (color : List (List ℚ)) : VertexColorComponent :=
  ⟨color, none⟩

/-- the `color` property getter -/
def VertexColorComponent.color (c : VertexColorComponent) : List (List ℚ) := c._color

/-- the `color` property setter: assigns `self._color = c` and nothing else
(in particular it does not touch `self._vbo`). -/
def VertexColorComponent.setColor (c : VertexColorComponent) (v : List (List ℚ)) :
    VertexColorComponent :=
  { c with _color := v }

/-- the `vbo` property: `if self._vbo is None: self._vbo = gloo.VertexBuffer(self._color)`;
returns the (possibly cached) handle together with the updated component and
allocator state. -/
def VertexColorComponent.vbo (c : VertexColorComponent) (s : GlooState) :
    Buffer × VertexColorComponent × GlooState :=
  match c._vbo with
  | some b => (b, c, s)
  | none =>
    let (b, s2) := gloo.VertexBuffer c._color s
    (b, { c with _vbo := some b }, s2)

/-- Result of `VertexColorComponent.activate`: the bindings written into the
`frag_color` function (`ff`) and the `vert_post_hook` function (`vf`),
plus the component and allocator state after the call. -/
structure VCActivation where
  ff : List (String × ShaderSym)
  vf : List (String × ShaderSym)
  comp : VertexColorComponent
  st : GlooState
deriving DecidableEq, Repr

/-- `activate(self, program, mode)` of `VertexColorComponent`:
`ff['rgba'] = ('varying', 'vec4')`; `vf['output_color'] = ff['rgba']`;
`vf['input_color'] = ('attribute', 'vec4', self.vbo)`. -/
def VertexColorComponent.activate (c : VertexColorComponent) (s : GlooState) : VCActivation :=
  let rgba : ShaderSym := ShaderSym.decl "varying" "vec4" none
  let (b, c2, s2) := c.vbo s
  { ff := [("rgba", rgba)]
    vf := [("output_color", rgba),
           ("input_color", ShaderSym.decl "attribute" "vec4" (some (PyVal.buffer b)))]
    comp := c2
    st := s2 }

/-- C4: `VertexColorComponent.activate` declares `rgba` as a varying vec4 in
the `frag_color` bindings and `input_color` as an attribute vec4 bound to the
component's buffer handle in the `vert_post_hook` bindings; the
`vert_post_hook` template is a void function whose body copies the input
attribute into the output varying, and the `frag_color` template returns the
`rgba` placeholder bound to that varying. -/
theorem vertexColor_bindings_contract (col : List (List ℚ)) (s : GlooState) :
    (let a := (VertexColorComponent.init col).activate s
     let b := ((VertexColorComponent.init col).vbo s).1
     a.ff = [("rgba", ShaderSym.decl "varying" "vec4" none)] ∧
     a.vf = [("output_color", ShaderSym.decl "varying" "vec4" none),
             ("input_color", ShaderSym.decl "attribute" "vec4" (some (PyVal.buffer b)))] ∧
     b.data = col) ∧
    (∃ tf tv : ShaderTemplate,
      VertexColorComponent.SHADERS = [("frag_color", tf), ("vert_post_hook", tv)] ∧
      tv.retType = "void" ∧
      tv.body = [.assignPh "output_color" (.ph "input_color")] ∧
      tf.retType = "vec4" ∧ tf.params = [] ∧
      tf.body = [.ret (.ph "rgba")]) := by
  exact ⟨⟨rfl, rfl, rfl⟩, ⟨_, _, rfl, rfl, rfl, rfl, rfl, rfl⟩⟩

/-- C2 counterexample: build a `VertexColorComponent` with color
`[[1,0,0,1]]`, activate once (the buffer with the original data is uploaded
and cached), then assign a new array `[[0,1,0,1]]` through the color setter.
The next `activate` still binds the cached buffer built from the ORIGINAL
array — the cache is not invalidated by the assignment, contradicting the
claim that the next activate binds a buffer built from the new array. -/
theorem vertexColor_stale_cache_cex :
    (let a1 := (VertexColorComponent.init [[1, 0, 0, 1]]).activate ⟨0⟩
     let a2 := (a1.comp.setColor [[0, 1, 0, 1]]).activate a1.st
     (a1.comp.setColor [[0, 1, 0, 1]])._color = [[0, 1, 0, 1]] ∧
     a2.vf = [("output_color", ShaderSym.decl "varying" "vec4" none),
              ("input_color",
               ShaderSym.decl "attribute" "vec4"
                 (some (PyVal.buffer ⟨0, [[1, 0, 0, 1]]⟩)))] ∧
     ([[1, 0, 0, 1]] : List (List ℚ)) ≠ [[0, 1, 0, 1]]) := by
  refine ⟨rfl, rfl, by decide⟩

/-- C2 (amended): the backing color data is uploaded as a vertex buffer
lazily on first access of `vbo` and the handle is cached for the component's
lifetime; assigning a new array through the color setter does NOT invalidate
the cache — the next `activate` binds the same cached handle, still holding
the original array's data, and allocates nothing new. -/
theorem vertexColor_vbo_lazy_cached (col ncol : List (List ℚ)) (s : GlooState) :
    (VertexColorComponent.init col)._vbo = none ∧
    (let a1 := (VertexColorComponent.init col).activate s
     let b1 : Buffer := ⟨s.nextId, col⟩
     a1.comp._vbo = some b1 ∧
     a1.vf = [("output_color", ShaderSym.decl "varying" "vec4" none),
              ("input_color", ShaderSym.decl "attribute" "vec4" (some (PyVal.buffer b1)))] ∧
     (let a2 := (a1.comp.setColor ncol).activate a1.st
      a2.vf = a1.vf ∧ a2.st = a1.st ∧ a2.comp._vbo = some b1)) := by
  exact ⟨rfl, rfl, rfl, rfl, rfl, rfl⟩

/-- `GridContourComponent`: draw grid lines across a surface. `__init__`
stores only `spacing`; the `_color` slot backing the color property is not
initialized by the constructor (modelled by an `Option` that is `none` until
the setter runs, mirroring the absent Python instance attribute). -/
structure GridContourComponent where
  spacing : List ℚ
  _color : Option (List ℚ)
deriving DecidableEq, Repr

/-- The `SHADERS` dict of `GridContourComponent`: `frag_color` is
`vec4 $grid_contour(vec4 color)` testing
`mod($pos.x,$spacing.x) < 0.005 || mod($pos.y,$spacing.y) < 0.005 ||
mod($pos.z,$spacing.z) < 0.005` and brightening the color when it holds;
`vert_post_hook` is `void $grid_contour_support() { $output_pos = local_position(); }`. -/
def GridContourComponent.SHADERS : List (String × ShaderTemplate) :=
  [("frag_color",
    { retType := "vec4"
      name_ph := "grid_contour"
      params := [("vec4", "color")]
      body :=
        [.iteS
          (.bin "||"
            (.bin "||"
              (.bin "<" (.callE "mod" [.member (.ph "pos") "x", .member (.ph "spacing") "x"])
                (.num (5 / 1000)))
              (.bin "<" (.callE "mod" [.member (.ph "pos") "y", .member (.ph "spacing") "y"])
                (.num (5 / 1000))))
            (.bin "<" (.callE "mod" [.member (.ph "pos") "z", .member (.ph "spacing") "z"])
              (.num (5 / 1000))))
          [.ret (.bin "+" (.varE "color")
            (.bin "*" (.num (7 / 10))
              (.bin "-" (.callE "vec4" [.num 1, .num 1, .num 1, .num 1]) (.varE "color"))))]
          [.ret (.varE "color")]] }),
   ("vert_post_hook",
    { retType := "void"
      name_ph := "grid_contour_support"
      params := []
      body := [.assignPh "output_pos" (.callE "local_position" [])] })]

/-- `__init__(self, spacing)`: stores only the spacing. -/
def GridContourComponent.init (spacing : List ℚ) : GridContourComponent :=
  ⟨spacing, none⟩

/-- the `color` property getter: `return self._color` raises `AttributeError`
when `self._color` was never assigned. -/
def GridContourComponent.color (c : GridContourComponent) : Except PyError (List ℚ) :=
  match c._color with
  | some v => .ok v
  | none => .error .attributeError

/-- the `color` property setter -/
def GridContourComponent.setColor (c : GridContourComponent) (v : List ℚ) :
    GridContourComponent :=
  { c with _color := some v }

/-- Result of `GridContourComponent.activate`: bindings of the `frag_color`
function (`ff`) and of the `vert_post_hook` function. -/
structure GCActivation where
  ff : List (String × ShaderSym)
  vf : List (String × ShaderSym)
deriving DecidableEq, Repr

/-- `activate(self, program, mode)` of `GridContourComponent`:
`ff['pos'] = ('varying', 'vec4')`; `ff['spacing'] = ('uniform', 'vec3', self.spacing)`;
`self._funcs['vert_post_hook']['output_pos'] = ff['pos']`. -/
def GridContourComponent.activate (c : GridContourComponent) : GCActivation :=
  let pos : ShaderSym := ShaderSym.decl "varying" "vec4" none
  { ff := [("pos", pos),
           ("spacing", ShaderSym.decl "uniform" "vec3" (some (PyVal.tuple c.spacing)))]
    vf := [("output_pos", pos)] }

/-- A "normal" provider component, as consumed by `ShadingComponent`.
Modelled from the spec: the provider class is outside this excerpt; its
`normal_shader()` method returns the provider's output shader-function
object, used as a chained function reference. -/
structure NormalProvider where
  fnName : String
deriving DecidableEq, Repr

/-- `normal_comp.normal_shader()`: the provider's output function Symbol.
Modelled from the spec: a chained reference to the provider's function. -/
def NormalProvider.normal_shader (p : NormalProvider) : ShaderSym :=
  ShaderSym.chained p.fnName

/-- `ShadingComponent`: Phong reflection and shading material. -/
structure ShadingComponent where
  normal_comp : NormalProvider
  lights : List (List (List ℚ))
  ambient : ℚ
deriving DecidableEq, Repr

/-- The `SHADERS` dict of `ShadingComponent`: the Phong `frag_color`
function `vec4 $shading(vec4 color)`. -/
def ShadingComponent.SHADERS : List (String × ShaderTemplate) :=
  [("frag_color",
    { retType := "vec4"
      name_ph := "shading"
      params := [("vec4", "color")]
      body :=
        [.declAssign "vec3" "norm" (.callE "normalize" [.member (.phCall "normal") "xyz"]),
         .declAssign "vec3" "light"
           (.callE "normalize" [.member (.ph "light_direction") "xyz"]),
         .declAssign "float" "p" (.callE "dot" [.varE "light", .varE "norm"]),
         .assign (.varE "p") (.cond (.bin "<" (.varE "p") (.num 0)) (.num 0) (.varE "p")),
         .declAssign "vec4" "diffuse" (.bin "*" (.ph "light_color") (.varE "p")),
         .assign (.member (.varE "diffuse") "a") (.num 1),
         .assign (.varE "p")
           (.callE "dot"
             [.callE "reflect" [.varE "light", .varE "norm"],
              .callE "vec3" [.num 0, .num 0, .num 1]]),
         .ifS (.bin "<" (.varE "p") (.num 0)) [.assign (.varE "p") (.num 0)],
         .declAssign "vec4" "specular"
           (.bin "*" (.bin "*" (.ph "light_color") (.num 5))
             (.callE "pow" [.varE "p", .num 100])),
         .ret (.bin "+"
           (.bin "*" (.varE "color") (.bin "+" (.ph "ambient") (.varE "diffuse")))
           (.varE "specular"))] })]

/-- `__init__(self, normal_comp, lights, ambient=0.2)`. -/
def ShadingComponent.init (normal_comp : NormalProvider) (lights : List (List (List ℚ)))
    (ambient : ℚ := 2 / 10) : ShadingComponent :=
  ⟨normal_comp, lights, ambient⟩

/-- `activate(self, program, mode)` of `ShadingComponent`:
`ff['normal'] = self.normal_comp.normal_shader()`;
`ff['light_direction'] = ('uniform', 'vec4', tuple(self.lights[0][0][:3]) + (1,))`;
`ff['light_color'] = ('uniform', 'vec4', tuple(self.lights[0][1][:3]) + (1,))`;
`ff['ambient'] = ('uniform', 'float', self.ambient)`.
Indexing an out-of-range list (`lights[0]`, `lights[0][0]`, `lights[0][1]`)
raises `IndexError`; the slice `[:3]` never raises. -/
def ShadingComponent.activate (c : ShadingComponent) :
    Except PyError (List (String × ShaderSym)) :=
  match c.lights with
  | [] => .error .indexError
  | l0 :: _ =>
    match l0 with
    | [] => .error .indexError
    | dir :: l0rest =>
      match l0rest with
      | [] => .error .indexError
      | lcol :: _ =>
        .ok [("normal", c.normal_comp.normal_shader),
             ("light_direction",
              ShaderSym.decl "uniform" "vec4" (some (PyVal.tuple (dir.take 3 ++ [1])))),
             ("light_color",
              ShaderSym.decl "uniform" "vec4" (some (PyVal.tuple (lcol.take 3 ++ [1])))),
             ("ambient", ShaderSym.decl "uniform" "float" (some (PyVal.scalar c.ambient)))]

/-- Whether a Symbol is a chained function reference rather than a
uniform/attribute/varying storage declaration. -/
def ShaderSym.isChained : ShaderSym → Bool
  | .chained _ => true
  | .decl _ _ _ => false

/-- C3: whenever `ShadingComponent.activate` succeeds (lights with a first
entry providing direction and color), the `normal` placeholder is bound to
the provider's output function Symbol `normal_comp.normal_shader()` — a
chained function reference, not a fresh uniform/attribute/varying
declaration. -/
theorem shading_normal_chained (nc : NormalProvider) (amb : ℚ) (d lcol : List ℚ)
    (rest : List (List ℚ)) (tl : List (List (List ℚ))) :
    (ShadingComponent.init nc ((d :: lcol :: rest) :: tl) amb).activate =
      .ok [("normal", nc.normal_shader),
           ("light_direction",
            ShaderSym.decl "uniform" "vec4" (some (PyVal.tuple (d.take 3 ++ [1])))),
           ("light_color",
            ShaderSym.decl "uniform" "vec4" (some (PyVal.tuple (lcol.take 3 ++ [1])))),
           ("ambient", ShaderSym.decl "uniform" "float" (some (PyVal.scalar amb)))] ∧
    nc.normal_shader = ShaderSym.chained nc.fnName ∧
    nc.normal_shader.isChained = true := by
  exact ⟨rfl, rfl, rfl⟩

/-- C5: the varying Symbol declared for the fragment stage is reused directly
as the vertex-stage output target: for `VertexColorComponent`,
`vf['output_color']` is the very Symbol stored at `ff['rgba']`, and for
`GridContourComponent`, `vert_post_hook`'s `output_pos` is the very Symbol
stored at `ff['pos']`. -/
theorem varying_symbol_shared (col : List (List ℚ)) (s : GlooState) (spacing : List ℚ) :
    (∃ (sym : ShaderSym) (b : Buffer),
      ((VertexColorComponent.init col).activate s).ff = [("rgba", sym)] ∧
      ((VertexColorComponent.init col).activate s).vf =
        [("output_color", sym),
         ("input_color", ShaderSym.decl "attribute" "vec4" (some (PyVal.buffer b)))]) ∧
    (∃ sym : ShaderSym,
      (GridContourComponent.init spacing).activate.ff =
        [("pos", sym),
         ("spacing", ShaderSym.decl "uniform" "vec3" (some (PyVal.tuple spacing)))] ∧
      (GridContourComponent.init spacing).activate.vf = [("output_pos", sym)]) := by
  exact ⟨⟨_, _, rfl, rfl⟩, ⟨_, rfl, rfl⟩⟩

/-- C6: `GridContourComponent`'s `frag_color` template is a function taking
one `vec4 color` parameter and returning `vec4`; its `vert_post_hook`
contributor copies the vertex's local position into the output varying; and
`activate` declares `pos` as a varying vec4 and `spacing` as a uniform vec3
holding the component's spacing value. -/
theorem gridContour_contract (spacing : List ℚ) :
    (∃ tf tv : ShaderTemplate,
      GridContourComponent.SHADERS = [("frag_color", tf), ("vert_post_hook", tv)] ∧
      tf.retType = "vec4" ∧ tf.params = [("vec4", "color")] ∧
      tv.retType = "void" ∧ tv.params = [] ∧
      tv.body = [.assignPh "output_pos" (.callE "local_position" [])]) ∧
    (GridContourComponent.init spacing).activate.ff =
      [("pos", ShaderSym.decl "varying" "vec4" none),
       ("spacing", ShaderSym.decl "uniform" "vec3" (some (PyVal.tuple spacing)))] ∧
    (GridContourComponent.init spacing).activate.vf =
      [("output_pos", ShaderSym.decl "varying" "vec4" none)] := by
  exact ⟨⟨_, _, rfl, rfl, rfl, rfl, rfl, rfl⟩, rfl, rfl⟩

/-- C8 counterexample: a `ShadingComponent` whose first lights entry provides
two sequences of only 2 components each does NOT raise: `activate` succeeds,
because the Python slice `[:3]` tolerates short sequences — so activate does
not require sequences of at least 3 components. (The resulting "vec4" values
have only 3 entries.) -/
theorem shading_short_sequences_no_error :
    (ShadingComponent.init ⟨"surface_normal"⟩ [[[1, 0], [0, 1]]] (2 / 10)).activate =
      .ok [("normal", ShaderSym.chained "surface_normal"),
           ("light_direction",
            ShaderSym.decl "uniform" "vec4" (some (PyVal.tuple [1, 0, 1]))),
           ("light_color",
            ShaderSym.decl "uniform" "vec4" (some (PyVal.tuple [0, 1, 1]))),
           ("ambient", ShaderSym.decl "uniform" "float" (some (PyVal.scalar (2 / 10))))] := by
  rfl

/-- C8 (amended): `ShadingComponent.activate` requires a non-empty lights
list whose first entry provides at least two sequences (direction and
color); sequences shorter than 3 components are sliced without error. For a
component constructed with an empty lights list — or a first entry with
fewer than two sequences — `activate` raises `IndexError` instead of
producing bindings. -/
theorem shading_lights_index_errors :
    (∀ (nc : NormalProvider) (amb : ℚ),
      (ShadingComponent.init nc [] amb).activate = .error .indexError) ∧
    (∀ (nc : NormalProvider) (amb : ℚ) (tl : List (List (List ℚ))),
      (ShadingComponent.init nc ([] :: tl) amb).activate = .error .indexError) ∧
    (∀ (nc : NormalProvider) (amb : ℚ) (d : List ℚ) (tl : List (List (List ℚ))),
      (ShadingComponent.init nc ([d] :: tl) amb).activate = .error .indexError) := by
  exact ⟨fun _ _ => rfl, fun _ _ _ => rfl, fun _ _ _ _ => rfl⟩

/-- C9: `GridContourComponent`'s constructor stores only the spacing and
never initializes a color: reading the `color` property of a freshly
constructed component raises `AttributeError`. -/
theorem gridContour_color_unset (spacing : List ℚ) :
    GridContourComponent.init spacing =
      { spacing := spacing, _color := none } ∧
    (GridContourComponent.init spacing).color = .error .attributeError := by
  exact ⟨rfl, rfl⟩

/-- C10: for lights whose first entry's direction and color sequences carry
at least 3 components, `light_direction` and `light_color` are bound as vec4
4-tuples built from exactly the first three components with a fourth
component equal to 1; any further components (`dr`, `cr`) are discarded. -/
theorem shading_light_uniforms_truncated (nc : NormalProvider) (amb : ℚ)
    (d0 d1 d2 : ℚ) (dr : List ℚ) (c0 c1 c2 : ℚ) (cr : List ℚ)
    (rest : List (List ℚ)) (tl : List (List (List ℚ))) :
    (ShadingComponent.init nc
        (((d0 :: d1 :: d2 :: dr) :: (c0 :: c1 :: c2 :: cr) :: rest) :: tl) amb).activate =
      .ok [("normal", nc.normal_shader),
           ("light_direction",
            ShaderSym.decl "uniform" "vec4" (some (PyVal.tuple [d0, d1, d2, 1]))),
           ("light_color",
            ShaderSym.decl "uniform" "vec4" (some (PyVal.tuple [c0, c1, c2, 1]))),
           ("ambient", ShaderSym.decl "uniform" "float" (some (PyVal.scalar amb)))] := by
  rfl

/-- C7: activation with unchanged state is idempotent across all four
component variants: two `UniformColorComponent`s with the same color produce
the same bindings; a `VertexColorComponent`'s second `activate` with
unchanged state reproduces the first activation exactly — same bindings and
the same cached buffer handle, with no new allocation; two
`GridContourComponent`s with the same spacing produce the same bindings
(whatever their color slots hold); and two `ShadingComponent`s with the same
normal provider, lights and ambient produce the same bindings. -/
theorem activate_idempotent :
    (∀ u v : UniformColorComponent, u._color = v._color → u.activate = v.activate) ∧
    (∀ (c : VertexColorComponent) (s : GlooState),
      (c.activate s).comp.activate (c.activate s).st = c.activate s) ∧
    (∀ g h : GridContourComponent, g.spacing = h.spacing → g.activate = h.activate) ∧
    (∀ a b : ShadingComponent,
      a.normal_comp = b.normal_comp → a.lights = b.lights → a.ambient = b.ambient →
        a.activate = b.activate) := by
  refine ⟨?_, ?_, ?_, ?_⟩
  · intro u v h
    cases u; cases v; cases h; rfl
  · intro c s
    cases c with
    | mk col vb => cases vb <;> rfl
  · intro g h e
    cases g; cases h; cases e; rfl
  · intro a b e1 e2 e3
    cases a; cases b; cases e1; cases e2; cases e3; rfl

/-- Witness for C7 at concrete inputs, one per component variant. -/
theorem activate_idempotent_witness :
    ((UniformColorComponent.init [1, 0, 0, 1]).activate =
      (UniformColorComponent.init [1, 0, 0, 1]).activate) ∧
    (((VertexColorComponent.init [[1, 0, 0, 1]]).activate ⟨0⟩).comp.activate
        ((VertexColorComponent.init [[1, 0, 0, 1]]).activate ⟨0⟩).st =
      (VertexColorComponent.init [[1, 0, 0, 1]]).activate ⟨0⟩) ∧
    ((GridContourComponent.init [1, 1, 1]).activate =
      ((GridContourComponent.init [1, 1, 1]).setColor [1, 0, 0, 1]).activate) ∧
    ((ShadingComponent.init ⟨"surface_normal"⟩ [[[1, 0, 0], [1, 1, 1]]] (2 / 10)).activate =
      (ShadingComponent.init ⟨"surface_normal"⟩ [[[1, 0, 0], [1, 1, 1]]] (2 / 10)).activate) :=
  ⟨activate_idempotent.1 _ _ rfl, activate_idempotent.2.1 _ _,
   activate_idempotent.2.2.1 _ _ rfl, activate_idempotent.2.2.2 _ _ rfl rfl rfl⟩
